/-
  Verification of the QSerialTerminal console pipeline.

  Shallow embedding of:
  * the VT100 escape-sequence interpreter of `UI::TerminalWidget`
    (src/UI/TerminalWidget.cpp, `vt100Processing` / `addText` / `insertText`),
  * the configuration setters of `UI::TerminalWidget` and `Serial::Console`,
  * the outgoing framing of `Serial::Console::send` (modelled from the spec,
    Console.cpp is not among the sources),
  * `Serial::Manager::writeData` (src/Serial/Manager.cpp),
  * `Serial::FileTransmission` timer ticks (src/Serial/FileTransmission.cpp).

  The display document is modelled as the list of characters held by the
  `QPlainTextEdit` text document; all insertions in `addText` happen at the
  document end, so cursor state is irrelevant to document content.
-/
import Mathlib

namespace QSerialTerminal

/-! ## VT100 interpreter (src/UI/TerminalWidget.cpp) -/

/-- Interpreter state, `TerminalWidget::m_terminalState`: one of
`VT100_Text`, `VT100_Escape`, `VT100_Command`, `VT100_ResetFont`.
This member persists across calls to `vt100Processing`. -/
inductive VTState where
  | text
  | escape
  | command
  | resetFont
deriving DecidableEq, Repr

/-- Observable effects on the display document, in order of occurrence:
`flushText t` is a call `addText(t, false)` made from inside
`vt100Processing` (or the final insertion of the returned residual text);
`clearScreen` is `textEdit()->clear()`; `clearLine` is the cursor surgery of
the `"2K"` branch. -/
inductive VTAction where
  | flushText : List Char → VTAction
  | clearScreen : VTAction
  | clearLine : VTAction
deriving DecidableEq, Repr

/-- The ESC character `0x1B` compared against in `vt100Processing`. -/
def escChar : Char := Char.ofNat 27

/-- TerminalWidget.cpp line 818: `hasNumbers = (c >= '0' && c <= '9')`. -/
def hasNumbers (c : Char) : Bool :=
  '0' ≤ c && c ≤ '9'

/-- TerminalWidget.cpp line 819:
`hasCommand = (c >= 'A' && c <= 'Z') || (c >= 'a' && c <= 'z')`. -/
def hasCommand (c : Char) : Bool :=
  ('A' ≤ c && c ≤ 'Z') || ('a' ≤ c && c ≤ 'z')

/-- Document content up to and including the last newline: what remains of
the document after the `"2K"` branch moves the cursor to `End`, then
`StartOfLine`, then selects to `End` and calls `removeSelectedText`
(TerminalWidget.cpp lines 846-852).  Everything after the last `'\n'` (the
in-progress line) is removed. -/
def dropLastLine (d : List Char) : List Char :=
  (d.reverse.dropWhile (fun c => c != '\n')).reverse

/-- Full effect of the `"2K"` branch on the document: remove the in-progress
line content, then `deletePreviousChar()` (line 853) removes one more
character — the newline that terminated the previous line, when there is
one (`deletePreviousChar` at document start is a no-op). -/
def vt2K (d : List Char) : List Char :=
  (dropLastLine d).dropLast

/-- State of one `vt100Processing` call together with the persistent pieces:
`doc` is the text document content, `st` is `m_terminalState` (persistent
member); `text` and `command` are the call-local accumulators `QString text`
and `QString command` declared at the top of `vt100Processing`; `actions`
records the document operations performed so far. -/
structure RunState where
  doc : List Char
  st : VTState
  text : List Char
  command : List Char
  actions : List VTAction
deriving DecidableEq, Repr

/-- One iteration of the character loop of `TerminalWidget::vt100Processing`
(TerminalWidget.cpp lines 779-867), faithful to the `switch` on
`m_terminalState`. -/
def vt100Char (r : RunState) (c : Char) : RunState :=
  match r.st with
  | .text =>
    if c = escChar then
      { r with doc := r.doc ++ r.text, text := [],
               actions := r.actions ++ [VTAction.flushText r.text],
               st := .escape }
    else if c = '\n' then
      { r with doc := r.doc ++ r.text ++ ['\n'], text := [],
               actions := r.actions ++ [VTAction.flushText (r.text ++ ['\n'])] }
    else
      { r with text := r.text ++ [c] }
  | .escape =>
    if c = '[' then
      { r with command := [], st := .command }
    else if c = '(' then
      { r with command := [], st := .resetFont }
    else
      { r with command := [] }
  | .command =>
    if c = escChar then
      { r with st := .escape }
    else if !hasNumbers c && !hasCommand c then
      { r with st := .text }
    else
      let cmd := r.command ++ [c]
      if cmd = ['2', 'J'] then
        { r with command := cmd, doc := [],
                 actions := r.actions ++ [VTAction.clearScreen], st := .text }
      else if cmd = ['H'] then
        { r with command := cmd, doc := [],
                 actions := r.actions ++ [VTAction.clearScreen], st := .text }
      else if cmd = ['2', 'K'] then
        { r with command := cmd, doc := vt2K r.doc,
                 actions := r.actions ++ [VTAction.clearLine], st := .text }
      else if 3 ≤ cmd.length then
        { r with command := cmd, st := .text }
      else
        { r with command := cmd }
  | .resetFont =>
    { r with st := .text }

/-- One call `vt100Processing(data)` on a widget whose document holds `doc`
and whose `m_terminalState` is `st`.  The accumulators `text` and `command`
are local to the call and start out empty. -/
def vt100Processing (data : List Char) (doc : List Char) (st : VTState) :
    RunState :=
  data.foldl vt100Char { doc := doc, st := st, text := [], command := [],
                         actions := [] }

/-- `TerminalWidget::insertText` / `addText(chunk, true)` with VT100
emulation enabled: run `vt100Processing` and insert the returned residual
text at the end of the document.  The pair is (document, interpreter
state). -/
def insertText (p : List Char × VTState) (chunk : List Char) :
    List Char × VTState :=
  ((vt100Processing chunk p.1 p.2).doc ++ (vt100Processing chunk p.1 p.2).text,
   (vt100Processing chunk p.1 p.2).st)

/-- Feed a list of received chunks to the widget in order, starting from an
empty document in the `VT100_Text` state, with VT100 emulation enabled. -/
def processChunks (chunks : List (List Char)) : List Char × VTState :=
  chunks.foldl insertText ([], VTState.text)

/-! ## Configuration setters and their change notifications -/

/-- `Serial::Console::DataMode` (src/Serial/Console.h lines 88-93). -/
inductive DataMode where
  | DataUTF8
  | DataHexadecimal
deriving DecidableEq, Repr

/-- `Serial::Console::DisplayMode` (src/Serial/Console.h lines 81-86). -/
inductive DisplayMode where
  | DisplayPlainText
  | DisplayHexadecimal
deriving DecidableEq, Repr

/-- `Serial::Console::LineEnding` (src/Serial/Console.h lines 95-102). -/
inductive LineEnding where
  | NoLineEnding
  | NewLine
  | CarriageReturn
  | BothNewLineAndCarriageReturn
deriving DecidableEq, Repr

/-- Change-notification signals raised by the configuration setters of
`UI::TerminalWidget` and `Serial::Console`. -/
inductive Notif where
  | autoscrollChanged
  | vt100EmulationChanged
  | consoleAutoscrollChanged
  | echoChanged
  | dataModeChanged
  | lineEndingChanged
  | displayModeChanged
  | showTimestampChanged
deriving DecidableEq, Repr

/-- Configuration bits of `UI::TerminalWidget` touched by the modelled
setters: `m_autoscroll` and `m_emulateVt100`. -/
structure WidgetConfig where
  autoscroll : Bool
  emulateVt100 : Bool
deriving DecidableEq, Repr

/-- Configuration of `Serial::Console` (src/Serial/Console.h lines
149-158). -/
structure ConsoleConfig where
  echo : Bool
  autoscroll : Bool
  showTimestamp : Bool
  dataMode : DataMode
  lineEnding : LineEnding
  displayMode : DisplayMode
deriving DecidableEq, Repr

/-- Number of occurrences of the notification `t` in the emitted list. -/
def countNotif (t : Notif) (l : List Notif) : Nat :=
  l.countP (fun n => n = t)

/-- `TerminalWidget::setVt100Emulation` (TerminalWidget.cpp lines 538-542):
unconditionally stores the value and emits `vt100EmulationChanged` once. -/
def setVt100Emulation (enabled : Bool) (w : WidgetConfig) :
    WidgetConfig × List Notif :=
  ({ w with emulateVt100 := enabled }, [Notif.vt100EmulationChanged])

namespace Console

/-- Modelled from the spec: Console.cpp is not among the sources, only
Console.h.  Per §3 of the spec every configuration setter stores the value
and raises its change notification even if the value is unchanged.
`Serial::Console::setAutoscroll`. -/
def setAutoscroll (enabled : Bool) (c : ConsoleConfig) :
    ConsoleConfig × List Notif :=
  ({ c with autoscroll := enabled }, [Notif.consoleAutoscrollChanged])

/-- Modelled from the spec: `Serial::Console::setEcho` (Console.cpp absent);
stores the value and raises `echoChanged` unconditionally. -/
def setEcho (enabled : Bool) (c : ConsoleConfig) :
    ConsoleConfig × List Notif :=
  ({ c with echo := enabled }, [Notif.echoChanged])

/-- Modelled from the spec: `Serial::Console::setShowTimestamp` (Console.cpp
absent); stores the value and raises `showTimestampChanged`
unconditionally. -/
def setShowTimestamp (enabled : Bool) (c : ConsoleConfig) :
    ConsoleConfig × List Notif :=
  ({ c with showTimestamp := enabled }, [Notif.showTimestampChanged])

/-- Modelled from the spec: `Serial::Console::setDataMode` (Console.cpp
absent); stores the value and raises `dataModeChanged` unconditionally. -/
def setDataMode (m : DataMode) (c : ConsoleConfig) :
    ConsoleConfig × List Notif :=
  ({ c with dataMode := m }, [Notif.dataModeChanged])

/-- Modelled from the spec: `Serial::Console::setLineEnding` (Console.cpp
absent); stores the value and raises `lineEndingChanged` unconditionally. -/
def setLineEnding (m : LineEnding) (c : ConsoleConfig) :
    ConsoleConfig × List Notif :=
  ({ c with lineEnding := m }, [Notif.lineEndingChanged])

/-- Modelled from the spec: `Serial::Console::setDisplayMode` (Console.cpp
absent); stores the value and raises `displayModeChanged`
unconditionally. -/
def setDisplayMode (m : DisplayMode) (c : ConsoleConfig) :
    ConsoleConfig × List Notif :=
  ({ c with displayMode := m }, [Notif.displayModeChanged])

end Console

/-- `TerminalWidget::setAutoscroll` (TerminalWidget.cpp lines 479-495):
stores `m_autoscroll`, forwards the value to
`Serial::Console::setAutoscroll` (which raises the console notification),
then unconditionally emits the widget's `autoscrollChanged` — exactly once,
also when the value did not change.  Scrollbar updates and repainting have
no effect on configuration or notifications. -/
def setAutoscroll (enabled : Bool) (w : WidgetConfig) (c : ConsoleConfig) :
    WidgetConfig × ConsoleConfig × List Notif :=
  ({ w with autoscroll := enabled },
   (Console.setAutoscroll enabled c).1,
   (Console.setAutoscroll enabled c).2 ++ [Notif.autoscrollChanged])

/-! ## Outgoing framing (`Serial::Console::send`, modelled from the spec) -/

/-- Standard UTF-8 encoding of one character (what `QString::toUtf8`
produces per character). -/
def utf8EncodeChar (c : Char) : List Nat :=
  let n := c.toNat
  if n < 0x80 then [n]
  else if n < 0x800 then
    [0xC0 ||| (n >>> 6), 0x80 ||| (n &&& 0x3F)]
  else if n < 0x10000 then
    [0xE0 ||| (n >>> 12), 0x80 ||| ((n >>> 6) &&& 0x3F), 0x80 ||| (n &&& 0x3F)]
  else
    [0xF0 ||| (n >>> 18), 0x80 ||| ((n >>> 12) &&& 0x3F),
     0x80 ||| ((n >>> 6) &&& 0x3F), 0x80 ||| (n &&& 0x3F)]

/-- UTF-8 encoding of a character sequence. -/
def utf8Encode (s : List Char) : List Nat :=
  s.foldr (fun c acc => utf8EncodeChar c ++ acc) []

/-- Byte sequence appended for each `Serial::Console::LineEnding` value,
per spec §4.5: `None` → nothing, `NewLine` → `"\n"`, `CarriageReturn` →
`"\r"`, `Both` → `"\r\n"`. -/
def lineEndingBytes : LineEnding → List Nat
  | .NoLineEnding => []
  | .NewLine => [0x0A]
  | .CarriageReturn => [0x0D]
  | .BothNewLineAndCarriageReturn => [0x0D, 0x0A]

/-- Modelled from the spec: the body of `Serial::Console::send` is missing
from the sources (Console.cpp is absent; Console.h line 126 only declares
it).  Per spec §4.5 the outgoing frame for non-hex input is the UTF-8 bytes
of the text followed by the configured line-ending bytes. -/
def sendFraming (text : List Char) (e : LineEnding) : List Nat :=
  utf8Encode text ++ lineEndingBytes e

/-! ## Serial::Manager::writeData (src/Serial/Manager.cpp lines 287-306) -/

/-- Outcome of one `Manager::writeData` call: the returned byte count, how
many times `port()->write` was invoked, the payload of the `dataSent`
signal, and whether `tx` was emitted. -/
structure WriteOutcome where
  ret : Int
  attempts : Nat
  dataSent : List Nat
  txEmitted : Bool
deriving DecidableEq, Repr

/-- `Serial::Manager::writeData`: when connected, call `port()->write(data)`
exactly once and return whatever count it reports (`portResult` stands for
that report, which may be `-1` or a short count); when the write reports a
positive count, emit `tx` and `dataSent` with the written prefix
(`writtenData.chop(data.length() - bytes)`).  When not connected, return
`-1` without attempting a write.  No retry, queue, or buffering of an
unsent remainder exists in the function. -/
def writeData (connected : Bool) (data : List Nat) (portResult : Int) :
    WriteOutcome :=
  if connected then
    if 0 < portResult then
      { ret := portResult, attempts := 1, dataSent := data.take portResult.toNat,
        txEmitted := true }
    else
      { ret := portResult, attempts := 1, dataSent := [], txEmitted := false }
  else
    { ret := -1, attempts := 0, dataSent := [], txEmitted := false }

/-! ## Serial::FileTransmission (src/Serial/FileTransmission.cpp) -/

/-- State relevant to file transmission: whether the pacing timer
`m_timer` is active, whether the serial device is connected
(`Manager::connected()`), and the lines not yet read from the stream
(`QTextStream::readLine` returns lines with the trailing newline already
stripped). -/
structure FTState where
  timerActive : Bool
  connected : Bool
  remaining : List (List Char)
deriving DecidableEq, Repr

/-- `FileTransmission::stopTransmission` (FileTransmission.cpp lines
188-192): stops the timer. -/
def stopTransmission (s : FTState) : FTState :=
  { s with timerActive := false }

/-- Effect of `Serial::Manager::disconnectDevice` on the file-transmission
state: the device becomes disconnected.  `disconnectDevice` emits
`portChanged`, `connectedChanged` and `availablePortsChanged`
(Manager.cpp lines 378-380) but never the `closed` signal, and
`FileTransmission`'s constructor connects `stopTransmission` only to
`Manager::closed` (FileTransmission.cpp line 52) and the UI-refresh slot
`fileChanged` to `connectedChanged`; hence the timer state is untouched. -/
def disconnectDevice (s : FTState) : FTState :=
  { s with connected := false }

/-- Outcome of one timer tick (`FileTransmission::sendLine`): the new
state, the bytes handed to `Manager::writeData`, and whether
`transmissionProgressChanged` was emitted. -/
structure TickOutcome where
  state : FTState
  written : List Nat
  progressEmitted : Bool
deriving DecidableEq, Repr

/-- `FileTransmission::sendLine` (FileTransmission.cpp lines 237-264): abort
when the timer is inactive or the device is disconnected; otherwise if the
stream is not at end, read one line (advancing the stream), skip it
entirely when empty, else append `"\n"` unless the line already ends with
it and write the UTF-8 bytes, emitting a progress notification; at end of
file, stop the transmission. -/
def sendLine (s : FTState) : TickOutcome :=
  if s.timerActive = false then
    { state := s, written := [], progressEmitted := false }
  else if s.connected = false then
    { state := s, written := [], progressEmitted := false }
  else
    match s.remaining with
    | [] => { state := stopTransmission s, written := [], progressEmitted := false }
    | line :: rest =>
      if line = [] then
        { state := { s with remaining := rest }, written := [],
          progressEmitted := false }
      else
        let out := if line.getLast? = some '\n' then line else line ++ ['\n']
        { state := { s with remaining := rest }, written := utf8Encode out,
          progressEmitted := true }

end QSerialTerminal

namespace QSerialTerminal

/-! ## Helper -/

/-- Number of occurrences of the document action `t` in an action list. -/
def countAction (t : VTAction) (l : List VTAction) : Nat :=
  l.countP (fun a => a = t)

/-! ## Claims -/

/-- C1: the spec requires chunk-boundary invariance ("feeding `"AB\x1B[2"`
then `"JC"` must equal feeding `"AB\x1B[2JC"` in one call: both clear the
screen and leave only `"C"`").  The code violates it: `m_terminalState`
persists across calls but the `command` accumulator is a local variable of
`vt100Processing`, so the partial command token `"2"` is lost at the chunk
boundary.  The split feed leaves the document at `"AB"` with the
interpreter stuck in `VT100_Command`, while the single call clears the
screen and leaves `"C"` in the `VT100_Text` state. -/
theorem vt100_chunk_boundary_divergence :
    processChunks [['A', 'B', escChar, '[', '2'], ['J', 'C']]
        = (['A', 'B'], VTState.command) ∧
    processChunks [['A', 'B', escChar, '[', '2', 'J', 'C']]
        = (['C'], VTState.text) ∧
    processChunks [['A', 'B', escChar, '[', '2'], ['J', 'C']]
        ≠ processChunks [['A', 'B', escChar, '[', '2', 'J', 'C']] := by
  decide

/-- C2 counterexample: the claim says that in the `EscapeSeen` state a
character that is neither `'['` nor `'('` sends the interpreter back to
`PlainText`.  It does not: feeding `'X'` in the `VT100_Escape` state leaves
the interpreter in `VT100_Escape` (the `VT100_Escape` case of
`vt100Processing` has no fallback branch), which differs from
`VT100_Text`. -/
theorem vt100_escape_other_char_counterexample :
    (vt100Char { doc := [], st := VTState.escape, text := [], command := ['x'],
                 actions := [] } 'X').st = VTState.escape ∧
    VTState.escape ≠ VTState.text := by
  decide

/-- C2 amended: when the interpreter is in the `EscapeSeen` state and the
next character is neither `'['` nor `'('`, the character is consumed with
no output and the interpreter REMAINS in `EscapeSeen` (only the command
buffer is cleared); it does not fall back to `PlainText`. -/
theorem vt100_escape_other_char_stays_in_escape (r : RunState) (c : Char)
    (hst : r.st = VTState.escape) (h1 : c ≠ '[') (h2 : c ≠ '(') :
    vt100Char r c = { r with command := [] } := by
  rcases r with ⟨doc, st, text, cmd, acts⟩
  simp only at hst
  subst hst
  simp [vt100Char, h1, h2]

/-- Witness for C2: concrete instance at the character `'X'`. -/
theorem vt100_escape_other_char_stays_in_escape_witness :
    vt100Char { doc := [], st := VTState.escape, text := [], command := ['x'],
                actions := [] } 'X'
      = { doc := [], st := VTState.escape, text := [], command := [],
          actions := [] } :=
  vt100_escape_other_char_stays_in_escape _ 'X' rfl (by decide) (by decide)

/-- C3 counterexample: the claim says `"2K"` deletes only the in-progress
line's content and leaves all previously finalized lines unchanged.  On the
document `"abc\ndef"` (finalized line `"abc"` plus in-progress `"def"`),
feeding `"\x1B[2K"` yields the document `"abc"` — not the claim-mandated
`"abc\n"` — because after `removeSelectedText` the handler also calls
`deletePreviousChar()`, which deletes the newline that terminated the
finalized line, turning it back into an in-progress line. -/
theorem vt100_clear_line_deletes_preceding_newline_counterexample :
    (vt100Processing [escChar, '[', '2', 'K']
        ['a', 'b', 'c', '\n', 'd', 'e', 'f'] VTState.text).doc
      = ['a', 'b', 'c'] ∧
    (['a', 'b', 'c'] : List Char) ≠ ['a', 'b', 'c', '\n'] := by
  decide

/-- C3 amended: processing the escape command token `"2K"` deletes the
in-progress line's content back to the start of that line AND additionally
deletes the newline that preceded it (so the last finalized line becomes
the new in-progress line), and returns the interpreter to `PlainText` with
no residual text.  For every document the result is
`(dropLastLine doc).dropLast`. -/
theorem vt100_clear_line_spec (doc : List Char) :
    (vt100Processing [escChar, '[', '2', 'K'] doc VTState.text).doc
        = (dropLastLine doc).dropLast ∧
    (vt100Processing [escChar, '[', '2', 'K'] doc VTState.text).st
        = VTState.text ∧
    (vt100Processing [escChar, '[', '2', 'K'] doc VTState.text).text = [] ∧
    (vt100Processing [escChar, '[', '2', 'K'] doc VTState.text).actions
        = [VTAction.flushText [], VTAction.clearLine] := by
  refine ⟨?_, ?_, ?_, ?_⟩ <;>
    simp [vt100Processing, vt100Char, vt2K, escChar, hasNumbers, hasCommand]

/-- C4: feeding the four characters `"\x1B[2J"` with the interpreter in
`PlainText` and VT100 emulation enabled clears the whole display document,
performs exactly one `clearScreen` action, appends zero residual characters
as text, and leaves the interpreter in `PlainText` — for every starting
document content. -/
theorem vt100_clear_screen_spec (doc : List Char) :
    (vt100Processing [escChar, '[', '2', 'J'] doc VTState.text).doc = [] ∧
    (vt100Processing [escChar, '[', '2', 'J'] doc VTState.text).st
        = VTState.text ∧
    (vt100Processing [escChar, '[', '2', 'J'] doc VTState.text).text = [] ∧
    (vt100Processing [escChar, '[', '2', 'J'] doc VTState.text).actions
        = [VTAction.flushText [], VTAction.clearScreen] ∧
    countAction VTAction.clearScreen
        (vt100Processing [escChar, '[', '2', 'J'] doc VTState.text).actions
      = 1 := by
  refine ⟨?_, ?_, ?_, ?_, ?_⟩ <;>
    simp [vt100Processing, vt100Char, escChar, hasNumbers, hasCommand,
          countAction]

/-- C5: processing the escape command token `"H"` (fed as `"\x1B[H"`) has
exactly the same effect on the display document, the interpreter state, the
residual text and the performed document actions as processing `"2J"` (fed
as `"\x1B[2J"`): both branches of the source execute the identical body
`textEdit()->clear(); m_terminalState = VT100_Text;`. -/
theorem vt100_cursor_home_equals_clear_screen (doc : List Char) :
    (vt100Processing [escChar, '[', 'H'] doc VTState.text).doc
        = (vt100Processing [escChar, '[', '2', 'J'] doc VTState.text).doc ∧
    (vt100Processing [escChar, '[', 'H'] doc VTState.text).st
        = (vt100Processing [escChar, '[', '2', 'J'] doc VTState.text).st ∧
    (vt100Processing [escChar, '[', 'H'] doc VTState.text).text
        = (vt100Processing [escChar, '[', '2', 'J'] doc VTState.text).text ∧
    (vt100Processing [escChar, '[', 'H'] doc VTState.text).actions
        = (vt100Processing [escChar, '[', '2', 'J'] doc VTState.text).actions := by
  refine ⟨?_, ?_, ?_, ?_⟩ <;>
    simp [vt100Processing, vt100Char, escChar, hasNumbers, hasCommand]

/-- C6: every configuration setter raises exactly one change notification
for every value — in particular for the value it already holds (`b`,
`d`, `l`, `m` range over all values, including the current ones), the same
as a value-changing set.  The widget setters are taken from the source
(TerminalWidget.cpp lines 479-495 and 538-542); the console setters are
modelled from the spec since Console.cpp is absent. -/
theorem config_setters_signal_exactly_once (w : WidgetConfig)
    (c : ConsoleConfig) (b : Bool) (d : DataMode) (l : LineEnding)
    (m : DisplayMode) :
    countNotif Notif.autoscrollChanged (setAutoscroll b w c).2.2 = 1 ∧
    countNotif Notif.vt100EmulationChanged (setVt100Emulation b w).2 = 1 ∧
    countNotif Notif.consoleAutoscrollChanged (Console.setAutoscroll b c).2
        = 1 ∧
    countNotif Notif.echoChanged (Console.setEcho b c).2 = 1 ∧
    countNotif Notif.showTimestampChanged (Console.setShowTimestamp b c).2
        = 1 ∧
    countNotif Notif.dataModeChanged (Console.setDataMode d c).2 = 1 ∧
    countNotif Notif.lineEndingChanged (Console.setLineEnding l c).2 = 1 ∧
    countNotif Notif.displayModeChanged (Console.setDisplayMode m c).2 = 1 :=
  ⟨rfl, rfl, rfl, rfl, rfl, rfl, rfl, rfl⟩

/-- C7: framing the user-submitted text `"hi"` with `lineEnding = Both`
produces exactly the outgoing bytes `68 69 0D 0A`; in general, framing
appends no bytes for `None`, `"\n"` for `NewLine`, `"\r"` for
`CarriageReturn` and `"\r\n"` for `Both`, after the text's own UTF-8
bytes.  (`Serial::Console::send` is modelled from the spec, Console.cpp
being absent from the sources.) -/
theorem send_framing_line_endings (t : List Char) :
    sendFraming t LineEnding.NoLineEnding = utf8Encode t ∧
    sendFraming t LineEnding.NewLine = utf8Encode t ++ [0x0A] ∧
    sendFraming t LineEnding.CarriageReturn = utf8Encode t ++ [0x0D] ∧
    sendFraming t LineEnding.BothNewLineAndCarriageReturn
        = utf8Encode t ++ [0x0D, 0x0A] ∧
    sendFraming ['h', 'i'] LineEnding.BothNewLineAndCarriageReturn
        = [0x68, 0x69, 0x0D, 0x0A] := by
  refine ⟨by simp [sendFraming, lineEndingBytes], rfl, rfl, rfl, by decide⟩

/-- C8: `Serial::Manager::writeData` attempts the underlying port write at
most once per call, reports a failed or short write upward as the byte
count the write operation returned (or `-1` when disconnected, with no
attempt), and the only data it reports onward via `dataSent` is the written
prefix — no retry, queue, or buffering of the unsent remainder. -/
theorem writeData_single_attempt_reports_count (connected : Bool)
    (data : List Nat) (portResult : Int) :
    (writeData connected data portResult).attempts ≤ 1 ∧
    (writeData connected data portResult).ret
        = (if connected then portResult else -1) ∧
    (writeData connected data portResult).dataSent
        = (if connected then
            (if 0 < portResult then data.take portResult.toNat else [])
          else []) ∧
    (writeData connected data portResult).txEmitted
        = (connected && decide (0 < portResult)) := by
  cases connected <;> by_cases h : 0 < portResult <;> simp [writeData, h]

/-- C9: the claim says the transmission always terminates (timer stopped)
on device disconnect or on an end-of-file tick.  The code violates the
disconnect half: `Manager` never emits the `closed` signal that
`FileTransmission` connects `stopTransmission` to, and `sendLine` returns
early while disconnected without stopping the timer — after a disconnect
with the timer running, the timer is still active, even after further
ticks.  (The end-of-file half does hold: a connected tick at end of stream
stops the timer.) -/
theorem disconnect_leaves_transmission_timer_active :
    (disconnectDevice { timerActive := true, connected := true,
                        remaining := [['a']] }).timerActive = true ∧
    (sendLine (disconnectDevice { timerActive := true, connected := true,
                                  remaining := [['a']] })).state.timerActive
        = true ∧
    (sendLine { timerActive := true, connected := true,
                remaining := [] }).state.timerActive = false := by
  decide

/-- C10: on a tick where the line read from the file is empty, nothing is
written and no progress notification is emitted while the stream still
advances past the line; on a tick where the line is non-empty and lacks a
trailing newline, exactly one `"\n"` is appended before its UTF-8 bytes are
written, with one progress notification. -/
theorem sendLine_empty_skip_and_newline_append (s : FTState)
    (line : List Char) (rest : List (List Char))
    (hA : s.timerActive = true) (hC : s.connected = true)
    (hR : s.remaining = line :: rest) :
    (line = [] →
      sendLine s = { state := { s with remaining := rest }, written := [],
                     progressEmitted := false }) ∧
    (line ≠ [] → line.getLast? ≠ some '\n' →
      sendLine s = { state := { s with remaining := rest },
                     written := utf8Encode (line ++ ['\n']),
                     progressEmitted := true }) := by
  constructor
  · intro h
    subst h
    simp [sendLine, hA, hC, hR]
  · intro h1 h2
    simp [sendLine, hA, hC, hR, h1, h2]

/-- Witness for C10: a tick reading the non-empty line `"hi"` writes the
bytes of `"hi\n"`, and a tick reading an empty line writes nothing. -/
theorem sendLine_empty_skip_and_newline_append_witness :
    (sendLine { timerActive := true, connected := true,
                remaining := [['h', 'i']] }).written
        = utf8Encode (['h', 'i'] ++ ['\n']) ∧
    (sendLine { timerActive := true, connected := true,
                remaining := [[]] }).written = [] := by
  have h1 := (sendLine_empty_skip_and_newline_append
      { timerActive := true, connected := true, remaining := [['h', 'i']] }
      ['h', 'i'] [] rfl rfl rfl).2 (by decide) (by decide)
  have h2 := (sendLine_empty_skip_and_newline_append
      { timerActive := true, connected := true, remaining := [[]] }
      [] [] rfl rfl rfl).1 rfl
  exact ⟨by rw [h1], by rw [h2]⟩

end QSerialTerminal
